import Mathlib

/-!
Verification development for the `fapy` FIRST-API client library
(`fapy/api.py`).  The request/response pipeline of `api.py` is embedded
shallowly: Python dictionaries of request parameters become association
lists, the pandas-based `Dframe` becomes a record of rows, an integer
index and an attached envelope, and each endpoint function becomes a Lean
function returning its result together with the list of fetches it
performed (so that "raised before any I/O" and "no second fetch" are
statable).  The module `fapy/server.py` is referenced by `api.py` but is
not part of the sources; its pieces (`build_url`, `send_http_request`,
`send_local_request`, `Dframe` construction) are modelled from the spec
and marked as such in their doc comments.
-/

namespace Fapy

/-- A value placed in a request-parameter dictionary: the Python code
puts strings, integers and booleans there. -/
inductive ArgVal where
  | s : String → ArgVal
  | i : Int → ArgVal
  | b : Bool → ArgVal
deriving DecidableEq, Repr

/-- A request-parameter dictionary (`args` in `_send_request`): an
insertion-ordered mapping from parameter name to optional value, as the
Python dict literal it embeds.  Names beginning with "/" are
path-positioned (see `get_schedule`, `get_hybrid`, ...). -/
abbrev Args := List (String × Option ArgVal)

/-- Python dict item assignment `args[k] = v`: replaces the value of an
existing key in place (insertion order kept), appends a new key at the
end. -/
def Args.set (args : Args) (k : String) (v : Option ArgVal) : Args :=
  if args.any (fun kv => kv.1 == k) then
    args.map (fun kv => if kv.1 == k then (k, v) else kv)
  else
    args ++ [(k, v)]

/-- A cell of a parsed payload row (JSON scalar). -/
inductive Cell where
  | s : String → Cell
  | n : Int → Cell
  | nil : Cell
deriving DecidableEq, Repr

/-- One row of a parsed payload, as a mapping column-name → cell. -/
abbrev Row := List (String × Cell)

/-- The response record (`fapy.server.FIRSTResponse`, which "acts like a
Python dictionary").  Its fields are the ResponseEnvelope of the spec
plus the `text`/`text_format` payload fields; the spec states every
field is always present (with explicit absence where applicable), so a
record is a faithful model of the dictionary. -/
structure Response where
  code : Int
  url : String
  requested_url : String
  time_downloaded : String
  last_modified : Option String
  mod_since : Option String
  only_mod_since : Option String
  local_data : Bool
  local_time : Option String
  frame_type : String
  text : Option String
  text_format : String
deriving DecidableEq, Repr

/-- The `fapy.server.Dframe` tabular result: a pandas dataframe with the
parsed payload rows, an integer row index, and the response envelope
attached as the `attr` property. -/
structure Dframe where
  rows : List Row
  index : List Nat
  attr : Response
deriving DecidableEq, Repr

/-- `frame[col][0]`: the value of column `col` at index label 0, i.e. at
the first row of a freshly assembled frame (whose index is 0,1,...). -/
def Dframe.at0 (df : Dframe) (col : String) : Option Cell :=
  df.rows.head?.bind (fun r => r.lookup col)

/-- What an endpoint function returns: the raw response dictionary
(`data_format` "json"/"xml") or a `Dframe` (`data_format`
"dataframe"). -/
inductive ApiResult where
  | dict : Response → ApiResult
  | frame : Dframe → ApiResult
deriving DecidableEq, Repr

/-- Whether an endpoint result is a tabular frame. -/
def ApiResult.isFrame : ApiResult → Bool
  | .dict _ => false
  | .frame _ => true

/-- The envelope carried by an endpoint result: the dictionary itself in
raw mode, the attached `attr` in frame mode. -/
def ApiResult.envelope : ApiResult → Response
  | .dict d => d
  | .frame f => f.attr

/-- Errors an endpoint function can raise: `fapy.server.ArgumentError`
for disallowed argument combinations, or an ordinary Python runtime
error (e.g. a missing `pageTotal` column in `get_teams`). -/
inductive ApiError where
  | argument : String → ApiError
  | runtime : ApiError
deriving DecidableEq, Repr

/-- One I/O operation performed by the pipeline: the requested URL, the
command, and whether the local (fixture) path was taken.  Endpoint
functions return the ordered list of these alongside their result. -/
structure FetchEvent where
  url : String
  cmd : String
  is_local : Bool
deriving DecidableEq, Repr

/-- The `Session` state: the values stored in the private attributes
after the validating property setters have run. -/
structure Session where
  username : String
  key : String
  season : Int
  data_format : String
  source : String
deriving DecidableEq, Repr

def STAGING_URL : String := "https://frc-staging-api.firstinspires.org"
def PRODUCTION_URL : String := "https://frc-api.firstinspires.org"
def FIRST_API_VERSION : String := "v2.0"

/-- Modelled from the spec: the URL Builder lives in `fapy/server.py`,
which is not among the sources.  Per spec §4.2 the URL is
`{base}/{api-version}/{season}/{command}{path-segments}?{query-segments}`
where the base host depends on `session.source`, path-positioned
parameters (names prefixed with "/") are appended to the path in
declaration order, the remaining non-null parameters become `key=value`
pairs joined by `&` in declaration order, and null-valued parameters are
skipped entirely. -/
def argStr : ArgVal → String
  | .s v => v
  | .i n => toString n
  | .b true => "True"
  | .b false => "False"

/-- Whether a parameter name marks a path-positioned parameter (the
`api.py` dictionaries prefix such names with "/"). -/
def isPathParam (name : String) : Bool :=
  name.data.head? == some '/'

/-- Joins query segments with "&" (the rendering spec §4.2 gives for
query-positioned parameters). -/
def joinAmp : List String → String
  | [] => ""
  | [x] => x
  | x :: y :: xs => x ++ "&" ++ joinAmp (y :: xs)

/-- Modelled from the spec: `fapy.server.build_url` (see `argStr`). -/
def build_url (s : Session) (cmd : String) (args : Args) : String :=
  let base := if s.source == "staging" then STAGING_URL else PRODUCTION_URL
  let path := args.filterMap (fun kv =>
    match kv.2 with
    | some v => if isPathParam kv.1 then some ("/" ++ argStr v) else none
    | none => none)
  let query := args.filterMap (fun kv =>
    match kv.2 with
    | some v => if isPathParam kv.1 then none else some (kv.1 ++ "=" ++ argStr v)
    | none => none)
  base ++ "/" ++ FIRST_API_VERSION ++ "/" ++ toString s.season ++ "/" ++ cmd
    ++ String.join path ++ "?" ++ joinAmp query

/-- Modelled from the spec: the transport, fixture and parse
capabilities (`fapy.server.send_http_request`,
`fapy.server.send_local_request`, and the payload parsing inside
`fapy.server.Dframe`) live in `fapy/server.py`, which is not among the
sources; spec §6 treats them as external capabilities, so they are
modelled as an abstract record of functions. -/
structure Server where
  sendHttp : Session → String → String → Option String → Option String → Response
  sendLocal : Session → String → String → Response
  parseRows : Response → List Row

/-- Modelled from the spec: `fapy.server.Dframe(response)` (Frame
Assembler, spec §4.5) parses the payload into rows, gives the frame a
contiguous ascending integer index starting at 0, and attaches the
envelope as the frame's `attr`. -/
def mkDframe (srv : Server) (r : Response) : Dframe :=
  let rows := srv.parseRows r
  { rows := rows, index := List.range rows.length, attr := r }

/-- The branch of `fapy.api._send_request` that obtains the response:
`server.send_local_request(session, url, cmd)` when `session.source ==
"local"`, otherwise `server.send_http_request(session, url, cmd,
mod_since, only_mod_since)`. -/
def rawResponse (srv : Server) (s : Session) (url cmd : String)
    (mod_since only_mod_since : Option String) : Response :=
  if s.source == "local" then srv.sendLocal s url cmd
  else srv.sendHttp s url cmd mod_since only_mod_since

/-- `fapy.api._send_request`: builds the URL, dispatches on
`session.source == "local"` to the local or HTTP sender, and wraps the
response in a `Dframe` exactly when `session.data_format ==
"dataframe"`.  The second component records the single fetch
performed. -/
def send_request (srv : Server) (s : Session) (cmd : String) (args : Args)
    (mod_since only_mod_since : Option String) : ApiResult × List FetchEvent :=
  let url := build_url s cmd args
  let response := rawResponse srv s url cmd mod_since only_mod_since
  let result :=
    if s.data_format == "dataframe" then ApiResult.frame (mkDframe srv response)
    else ApiResult.dict response
  (result, [{ url := url, cmd := cmd, is_local := s.source == "local" }])

/-- `fapy.api.get_status`. -/
def get_status (srv : Server) (s : Session) :
    Except ApiError ApiResult × List FetchEvent :=
  let sent := send_request srv s "status" [] none none
  (.ok sent.1, sent.2)

/-- `fapy.api.get_season`. -/
def get_season (srv : Server) (s : Session) :
    Except ApiError ApiResult × List FetchEvent :=
  let sent := send_request srv s "season" [] none none
  (.ok sent.1, sent.2)

/-- `fapy.api.get_districts`. -/
def get_districts (srv : Server) (s : Session)
    (mod_since only_mod_since : Option String) :
    Except ApiError ApiResult × List FetchEvent :=
  let sent := send_request srv s "districts" [] mod_since only_mod_since
  (.ok sent.1, sent.2)

/-- `fapy.api.get_events`: validates the argument combinations, then
delegates to `_send_request` with the `events` command. -/
def get_events (srv : Server) (s : Session)
    (event team district : Option String) (exclude_district : Option Bool)
    (mod_since only_mod_since : Option String) :
    Except ApiError ApiResult × List FetchEvent :=
  if event.isSome && (team.isSome || district.isSome || exclude_district.isSome) then
    (.error (.argument "If you specify an event, you cannot specify any other arguments."), [])
  else if district.isSome && exclude_district.isSome then
    (.error (.argument "You cannot specify both the district and exclude_district arguments."), [])
  else
    let event_args : Args :=
      [("eventCode", event.map ArgVal.s), ("teamNumber", team.map ArgVal.s),
       ("districtCode", district.map ArgVal.s),
       ("excludeDistrict", exclude_district.map ArgVal.b)]
    let sent := send_request srv s "events" event_args mod_since only_mod_since
    (.ok sent.1, sent.2)

/-- The `team_args` dictionary built by `get_teams`. -/
def teamsArgs (team event district state page : Option String) : Args :=
  [("teamNumber", team.map ArgVal.s), ("eventCode", event.map ArgVal.s),
   ("districtCode", district.map ArgVal.s), ("state", state.map ArgVal.s),
   ("page", page.map ArgVal.s)]

/-- Collects a list of results all of which must be frames (the shape
`pandas.concat` requires of `response_lst`); a dictionary in the list is
a runtime error. -/
def collectFrames : List ApiResult → Option (List Dframe)
  | [] => some []
  | .frame f :: rest => (collectFrames rest).map (fun fs => f :: fs)
  | .dict _ :: _ => none

/-- `pandas.concat(response_lst)` followed by the two statements
`response_df.index = range(0, response_df.shape[0])` and
`response_df.attr = response_lst[-1].attr` in `get_teams`: rows are
concatenated in list order, the index is reassigned to 0..rows-1, and
the attached envelope is that of the last frame in the list. -/
def concatReindexed (first : Dframe) (rest : List Dframe) : Dframe :=
  let rows := (first :: rest).flatMap Dframe.rows
  { rows := rows, index := List.range rows.length,
    attr := (rest.getLastD first).attr }

/-- `fapy.api.get_teams`: validates arguments, fetches page 1, and — when
the first result is a frame, no explicit `page` was requested and the
response was not a 304 — reads `pageTotal` from the first row and, if it
exceeds one, fetches pages 2..pageTotal sequentially and combines
them. -/
def get_teams (srv : Server) (s : Session)
    (team event district state page : Option String)
    (mod_since only_mod_since : Option String) :
    Except ApiError ApiResult × List FetchEvent :=
  if team.isSome && (event.isSome || district.isSome || state.isSome) then
    (.error (.argument "If you specify team, you cannot specify event, district, or state."), [])
  else
    let cmd := "teams"
    let team_args := teamsArgs team event district state page
    let sent := send_request srv s cmd team_args mod_since only_mod_since
    match sent.1 with
    | .dict d => (.ok (.dict d), sent.2)
    | .frame f =>
      if page.isSome then (.ok (.frame f), sent.2)
      else if f.attr.code == 304 then (.ok (.frame f), sent.2)
      else
        match f.at0 "pageTotal" with
        | some (.n pages) =>
          if pages == 1 then (.ok (.frame f), sent.2)
          else
            let fetched := (List.range' 2 (pages - 1).toNat).map (fun p =>
              send_request srv s cmd
                (team_args.set "page" (some (ArgVal.s (toString p))))
                mod_since only_mod_since)
            let evs := sent.2 ++ (fetched.map Prod.snd).flatten
            match collectFrames (fetched.map Prod.fst) with
            | some fs => (.ok (.frame (concatReindexed f fs)), evs)
            | none => (.error .runtime, evs)
        | _ => (.error .runtime, sent.2)

/-- `fapy.api.get_schedule`. -/
def get_schedule (srv : Server) (s : Session) (event : String)
    (level team : Option String) (start finish : Option Int)
    (mod_since only_mod_since : Option String) :
    Except ApiError ApiResult × List FetchEvent :=
  let sched_args : Args :=
    [("/eventCode", some (ArgVal.s event)), ("teamNumber", team.map ArgVal.s),
     ("tournamentLevel", level.map ArgVal.s), ("start", start.map ArgVal.i),
     ("end", finish.map ArgVal.i)]
  let sent := send_request srv s "schedule" sched_args mod_since only_mod_since
  (.ok sent.1, sent.2)

/-- The `hybrid_args` dictionary built by `get_hybrid`. -/
def hybridArgs (event : String) (level : Option String)
    (start finish : Option Int) : Args :=
  [("/eventCode", some (ArgVal.s event)), ("/tournamentLevel", level.map ArgVal.s),
   ("/hybrid", some (ArgVal.s "hybrid")), ("start", start.map ArgVal.i),
   ("end", finish.map ArgVal.i)]

/-- `fapy.api.get_hybrid`: sends the `schedule` command with the hybrid
path arguments, then overwrites `frame_type` with "hybrid" — in the
dictionary itself for a raw result, in the attached `attr` for a
frame. -/
def get_hybrid (srv : Server) (s : Session) (event : String)
    (level : Option String) (start finish : Option Int)
    (mod_since only_mod_since : Option String) :
    Except ApiError ApiResult × List FetchEvent :=
  let sent :=
    send_request srv s "schedule" (hybridArgs event level start finish)
      mod_since only_mod_since
  match sent.1 with
  | .dict d => (.ok (.dict { d with frame_type := "hybrid" }), sent.2)
  | .frame f =>
    (.ok (.frame { f with attr := { f.attr with frame_type := "hybrid" } }), sent.2)

/-- `fapy.api.get_matches`: validates the argument combinations, then
delegates to `_send_request` with the `matches` command. -/
def get_matches (srv : Server) (s : Session) (event : String)
    (level team mtch : Option String) (start finish : Option Int)
    (mod_since only_mod_since : Option String) :
    Except ApiError ApiResult × List FetchEvent :=
  if (mtch.isSome || start.isSome || finish.isSome) && level.isNone then
    (.error (.argument "You must specify the level when you specify match, start, or end."), [])
  else if team.isSome && mtch.isSome then
    (.error (.argument "You cannot specify both a team and a match number."), [])
  else if (start.isSome || finish.isSome) && mtch.isSome then
    (.error (.argument "You cannot specify start or end if you specify match."), [])
  else
    let result_args : Args :=
      [("/eventCode", some (ArgVal.s event)), ("tournamentLevel", level.map ArgVal.s),
       ("teamNumber", team.map ArgVal.s), ("matchNumber", mtch.map ArgVal.s),
       ("start", start.map ArgVal.i), ("end", finish.map ArgVal.i)]
    let sent := send_request srv s "matches" result_args mod_since only_mod_since
    (.ok sent.1, sent.2)

/-- `fapy.api.get_scores`: validates the argument combinations, then
delegates to `_send_request` with the `scores` command. -/
def get_scores (srv : Server) (s : Session) (event : String)
    (level team mtch : Option String) (start finish : Option Int)
    (mod_since only_mod_since : Option String) :
    Except ApiError ApiResult × List FetchEvent :=
  if team.isSome && mtch.isSome then
    (.error (.argument "You cannot specify both a team and a match number."), [])
  else if (start.isSome || finish.isSome) && mtch.isSome then
    (.error (.argument "You cannot specify start or end if you specify match."), [])
  else
    let score_args : Args :=
      [("/eventCode", some (ArgVal.s event)), ("/tournamentLevel", level.map ArgVal.s),
       ("teamNumber", team.map ArgVal.s), ("matchNumber", mtch.map ArgVal.s),
       ("start", start.map ArgVal.i), ("end", finish.map ArgVal.i)]
    let sent := send_request srv s "scores" score_args mod_since only_mod_since
    (.ok sent.1, sent.2)

/-- `fapy.api.get_alliances`. -/
def get_alliances (srv : Server) (s : Session) (event : String)
    (mod_since only_mod_since : Option String) :
    Except ApiError ApiResult × List FetchEvent :=
  let alliance_args : Args := [("/eventCode", some (ArgVal.s event))]
  let sent := send_request srv s "alliances" alliance_args mod_since only_mod_since
  (.ok sent.1, sent.2)

/-- `fapy.api.get_rankings`: validates that `team` and `top` are not both
given, then delegates to `_send_request` with the `rankings` command. -/
def get_rankings (srv : Server) (s : Session) (event : String)
    (team top : Option String) (mod_since only_mod_since : Option String) :
    Except ApiError ApiResult × List FetchEvent :=
  if team.isSome && top.isSome then
    (.error (.argument "You cannot specifiy both the team and top arguments."), [])
  else
    let rank_args : Args :=
      [("/eventCode", some (ArgVal.s event)), ("teamNumber", team.map ArgVal.s),
       ("top", top.map ArgVal.s)]
    let sent := send_request srv s "rankings" rank_args mod_since only_mod_since
    (.ok sent.1, sent.2)

/-- A Python value handed to a `Session` property setter: a string, an
integer, `None`, or some other object (tagged, since only its not being
one of the former kinds matters to the setters). -/
inductive PyVal where
  | str : String → PyVal
  | int : Int → PyVal
  | noneV : PyVal
  | other : Nat → PyVal
deriving DecidableEq, Repr

/-- Whether a `PyVal` is a Python string (`isinstance(v, str)`). -/
def PyVal.isStr : PyVal → Bool
  | .str _ => true
  | _ => false

/-- The kinds of Python exception the `Session` setters can raise.
`attributeError` models calling `.lower()` on a non-string. -/
inductive PyError where
  | typeError : PyError
  | valueError : PyError
  | attributeError : PyError
deriving DecidableEq, Repr

/-- `str.lower()` restricted to ASCII (the embedding does not model the
wider Unicode case mappings Python applies). -/
def pyLower (s : String) : String :=
  ⟨s.data.map Char.toLower⟩

/-- `str.isnumeric()` restricted to ASCII digit strings (the embedding
does not model the wider Unicode numeric categories Python accepts). -/
def pyIsNumeric (s : String) : Bool :=
  !s.data.isEmpty && s.data.all Char.isDigit

/-- `int(s)` for a string of ASCII digits. -/
def pyToNat (s : String) : Nat :=
  s.data.foldl (fun a c => a * 10 + (c.toNat - 48)) 0

/-- The `Session.username` setter: raises `TypeError` on a non-string,
otherwise stores the value verbatim. -/
def usernameSetter : PyVal → Except PyError String
  | .str u => .ok u
  | _ => .error .typeError

/-- The `Session.key` setter: raises `TypeError` on a non-string,
otherwise stores the value verbatim. -/
def keySetter : PyVal → Except PyError String
  | .str k => .ok k
  | _ => .error .typeError

/-- The `Session.season` setter: a numeric string is first converted to
an integer; `None` stores the current year; an integer in
[2015, current_year + 1] is stored; an integer outside that range raises
`ValueError`; any remaining value (a non-numeric string or other object)
raises `TypeError` when Python compares it with 2015. -/
def seasonSetter (currentYear : Int) (season : PyVal) : Except PyError Int :=
  let season :=
    match season with
    | .str s => if pyIsNumeric s then PyVal.int (pyToNat s) else PyVal.str s
    | v => v
  match season with
  | .noneV => .ok currentYear
  | .int i =>
    if 2015 ≤ i && i ≤ currentYear + 1 then .ok i
    else .error .valueError
  | _ => .error .typeError

/-- The `Session.data_format` setter: raises `TypeError` on a
non-string, `ValueError` unless the lowercased value is "dataframe",
"json" or "xml", and stores the lowercased value. -/
def dataFormatSetter : PyVal → Except PyError String
  | .str d =>
    if pyLower d == "dataframe" || pyLower d == "json" || pyLower d == "xml" then
      .ok (pyLower d)
    else .error .valueError
  | _ => .error .typeError

/-- The `Session.source` setter: if the lowercased value is
"production", "staging" or "local", the value is stored verbatim with no
warning; any other string stores "production" and emits a `UserWarning`
(the boolean in the result); a non-string raises `AttributeError` at the
`.lower()` call.  Returns (stored value, warning emitted). -/
def sourceSetter : PyVal → Except PyError (String × Bool)
  | .str src =>
    if pyLower src == "production" || pyLower src == "staging" || pyLower src == "local" then
      .ok (src, false)
    else
      .ok ("production", true)
  | _ => .error .attributeError

/-- `Session.__init__`: runs the property setters in order (username,
key, season, data_format, source); the first failing setter's exception
propagates.  Returns the constructed state together with whether the
source setter emitted a warning. -/
def mkSession (currentYear : Int)
    (username key season data_format source : PyVal) :
    Except PyError (Session × Bool) := do
  let u ← usernameSetter username
  let k ← keySetter key
  let se ← seasonSetter currentYear season
  let df ← dataFormatSetter data_format
  let (src, warned) ← sourceSetter source
  return ({ username := u, key := k, season := se, data_format := df,
            source := src }, warned)

/-! Helper functions naming the per-page artifacts of a `get_teams`
call, used to state the pagination theorems. -/

/-- The URL `get_teams` builds for a given `page` argument. -/
def teamsPageUrl (s : Session) (team event district state page : Option String) : String :=
  build_url s "teams" (teamsArgs team event district state page)

/-- The fetch event `get_teams` records for a given `page` argument. -/
def teamsPageEvent (s : Session) (team event district state page : Option String) :
    FetchEvent :=
  { url := teamsPageUrl s team event district state page, cmd := "teams",
    is_local := s.source == "local" }

/-- The frame produced for a given `page` argument of a teams fetch in
dataframe mode. -/
def teamsPageFrame (srv : Server) (s : Session)
    (team event district state page mod_since only_mod_since : Option String) : Dframe :=
  mkDframe srv (rawResponse srv s (teamsPageUrl s team event district state page)
    "teams" mod_since only_mod_since)

/-- The `page` argument of the k-th fetch of a paginated teams call:
page 1 is fetched with no explicit page, page k (k ≥ 2) with the string
form of k. -/
def pageArg (k : Nat) : Option String :=
  if k == 1 then none else some (toString k)

deriving instance DecidableEq for Except

/-- A degenerate response value used to build concrete servers in
witness statements. -/
def emptyResponse : Response :=
  { code := 200, url := "", requested_url := "", time_downloaded := "",
    last_modified := none, mod_since := none, only_mod_since := none,
    local_data := false, local_time := none, frame_type := "", text := none,
    text_format := "json" }

/-- A server whose transport and fixture capabilities return a fixed
response and whose parser returns fixed rows, for witness statements. -/
def constServer (r : Response) (rows : List Row) : Server :=
  { sendHttp := fun _ _ _ _ _ => r, sendLocal := fun _ _ _ => r,
    parseRows := fun _ => rows }

/-! ## Theorems about the Session setters -/

/-- C4: for every season value in [2015, current_year + 1] — given as an
integer, with numeric strings coerced to the integer they denote —
Session construction and assignment to the season field succeed and
store that integer; `None` defaults to the current year; an integer
value outside the range raises a `ValueError` from the setter and from
construction. -/
theorem season_setter_range (cy i : Int) (u k s : String) :
    (2015 ≤ i → i ≤ cy + 1 →
      seasonSetter cy (.int i) = .ok i ∧
      mkSession cy (.str u) (.str k) (.int i) (.str "dataframe") (.str "production") =
        .ok ({ username := u, key := k, season := i,
               data_format := "dataframe", source := "production" }, false)) ∧
    seasonSetter cy .noneV = .ok cy ∧
    ((i < 2015 ∨ cy + 1 < i) →
      seasonSetter cy (.int i) = .error .valueError ∧
      mkSession cy (.str u) (.str k) (.int i) (.str "dataframe") (.str "production") =
        .error .valueError) ∧
    (pyIsNumeric s = true →
      seasonSetter cy (.str s) = seasonSetter cy (.int (pyToNat s))) := by
  have hu : usernameSetter (.str u) = .ok u := rfl
  have hk : keySetter (.str k) = .ok k := rfl
  have hdf : dataFormatSetter (.str "dataframe") = .ok "dataframe" := rfl
  have hsrc : sourceSetter (.str "production") = .ok ("production", false) := rfl
  refine ⟨fun h1 h2 => ?_, rfl, fun h => ?_, fun hn => ?_⟩
  · have hs : seasonSetter cy (.int i) = .ok i := by
      simp [seasonSetter, h1, h2]
    exact ⟨hs, by simp [mkSession, hu, hk, hs, hdf, hsrc, Bind.bind, Except.bind, Functor.map, Except.map, Pure.pure, Except.pure]⟩
  · have hs : seasonSetter cy (.int i) = .error .valueError := by
      rcases h with h | h
      · have hnle : ¬ 2015 ≤ i := by omega
        simp [seasonSetter, hnle]
      · have hnle : ¬ i ≤ cy + 1 := by omega
        simp [seasonSetter, hnle]
    exact ⟨hs, by simp [mkSession, hu, hk, hs, Bind.bind, Except.bind, Functor.map, Except.map, Pure.pure, Except.pure]⟩
  · simp [seasonSetter, hn]

/-- Witness for `season_setter_range`: current year 2017, seasons 2016
(an integer in range), `None`, 2014 (out of range) and the numeric
string "2016". -/
theorem season_setter_range_witness :
    seasonSetter 2017 (.int 2016) = .ok 2016 ∧
    mkSession 2017 (.str "u") (.str "k") (.int 2016) (.str "dataframe") (.str "production") =
      .ok ({ username := "u", key := "k", season := 2016,
             data_format := "dataframe", source := "production" }, false) ∧
    seasonSetter 2017 .noneV = .ok 2017 ∧
    seasonSetter 2017 (.int 2014) = .error .valueError ∧
    seasonSetter 2017 (.str "2016") = seasonSetter 2017 (.int (pyToNat "2016")) :=
  ⟨((season_setter_range 2017 2016 "u" "k" "2016").1 (by decide) (by decide)).1,
   ((season_setter_range 2017 2016 "u" "k" "2016").1 (by decide) (by decide)).2,
   (season_setter_range 2017 2016 "u" "k" "2016").2.1,
   ((season_setter_range 2017 2014 "u" "k" "2016").2.2.1 (Or.inl (by decide))).1,
   (season_setter_range 2017 2016 "u" "k" "2016").2.2.2 (by decide)⟩

/-- C5 counterexample: the session constructed with `data_format` "JSON"
is valid, but its stored `data_format` field is the lowercased "json",
not the argument "JSON" — so the stored fields of a validly constructed
session do not always equal the arguments passed. -/
theorem session_roundtrip_counterexample :
    mkSession 2017 (.str "u") (.str "k") (.int 2016) (.str "JSON") (.str "production") =
      .ok ({ username := "u", key := "k", season := 2016,
             data_format := "json", source := "production" }, false) ∧
    ("json" : String) ≠ "JSON" :=
  ⟨rfl, by decide⟩

lemma usernameSetter_ok_inv {v : PyVal} {u : String} (h : usernameSetter v = .ok u) :
    v = .str u := by
  cases v <;> simp [usernameSetter] at h <;> simp [h]

lemma keySetter_ok_inv {v : PyVal} {k : String} (h : keySetter v = .ok k) :
    v = .str k := by
  cases v <;> simp [keySetter] at h <;> simp [h]

lemma dataFormatSetter_ok_inv {v : PyVal} {d : String} (h : dataFormatSetter v = .ok d) :
    ∃ s, v = .str s ∧ d = pyLower s := by
  cases v with
  | str s =>
    refine ⟨s, rfl, ?_⟩
    rcases Bool.eq_false_or_eq_true
        (pyLower s == "dataframe" || pyLower s == "json" || pyLower s == "xml") with hc | hc <;>
      simp [dataFormatSetter, hc] at h
    exact h.symm
  | int i => simp [dataFormatSetter] at h
  | noneV => simp [dataFormatSetter] at h
  | other t => simp [dataFormatSetter] at h

lemma sourceSetter_ok_inv {v : PyVal} {src : String} {w : Bool}
    (h : sourceSetter v = .ok (src, w)) :
    ∃ s, v = .str s ∧
      ((pyLower s = "production" ∨ pyLower s = "staging" ∨ pyLower s = "local") →
        src = s ∧ w = false) ∧
      (pyLower s ≠ "production" → pyLower s ≠ "staging" → pyLower s ≠ "local" →
        src = "production" ∧ w = true) := by
  cases v with
  | str s =>
    refine ⟨s, rfl, ?_, ?_⟩
    · intro hmem
      have hc : (pyLower s == "production" || pyLower s == "staging" ||
          pyLower s == "local") = true := by
        rcases hmem with h' | h' | h' <;> simp [h']
      simp [sourceSetter, hc] at h
      exact ⟨h.1.symm, h.2⟩
    · intro h1 h2 h3
      have hc : (pyLower s == "production" || pyLower s == "staging" ||
          pyLower s == "local") = false := by
        simp [h1, h2, h3]
      simp [sourceSetter, hc] at h
      exact ⟨h.1.symm, h.2⟩
  | int i => simp [sourceSetter] at h
  | noneV => simp [sourceSetter] at h
  | other t => simp [sourceSetter] at h

lemma seasonSetter_int_inv {cy i se : Int} (h : seasonSetter cy (.int i) = .ok se) :
    se = i := by
  simp only [seasonSetter] at h
  split at h
  · exact (Except.ok.inj h).symm
  · exact absurd h (by simp)

lemma seasonSetter_numstr_inv {cy se : Int} {s : String}
    (hn : pyIsNumeric s = true) (h : seasonSetter cy (.str s) = .ok se) :
    se = pyToNat s := by
  simp only [seasonSetter, hn, if_true] at h
  split at h
  · exact (Except.ok.inj h).symm
  · exact absurd h (by simp)

/-- Inversion for a successful `Session` construction: each property
setter succeeded and produced the corresponding stored field. -/
lemma mkSession_ok_inv {cy : Int} {username key season data_format source : PyVal}
    {sess : Session} {warned : Bool}
    (h : mkSession cy username key season data_format source = .ok (sess, warned)) :
    usernameSetter username = .ok sess.username ∧
    keySetter key = .ok sess.key ∧
    seasonSetter cy season = .ok sess.season ∧
    dataFormatSetter data_format = .ok sess.data_format ∧
    sourceSetter source = .ok (sess.source, warned) := by
  unfold mkSession at h
  cases hu : usernameSetter username with
  | error e => rw [hu] at h; simp [Bind.bind, Except.bind] at h
  | ok u =>
  rw [hu] at h
  cases hk : keySetter key with
  | error e => rw [hk] at h; simp [Bind.bind, Except.bind] at h
  | ok k =>
  rw [hk] at h
  cases hs : seasonSetter cy season with
  | error e => rw [hs] at h; simp [Bind.bind, Except.bind] at h
  | ok se =>
  rw [hs] at h
  cases hd : dataFormatSetter data_format with
  | error e => rw [hd] at h; simp [Bind.bind, Except.bind] at h
  | ok df =>
  rw [hd] at h
  cases hsrc : sourceSetter source with
  | error e => rw [hsrc] at h; simp [Bind.bind, Except.bind, Functor.map, Except.map] at h
  | ok p =>
  rw [hsrc] at h
  obtain ⟨src, w2⟩ := p
  simp only [Bind.bind, Except.bind, Functor.map, Except.map, Pure.pure, Except.pure,
    Except.ok.injEq, Prod.mk.injEq] at h
  obtain ⟨h1, h2⟩ := h
  subst h2
  subst h1
  exact ⟨rfl, rfl, rfl, rfl, rfl⟩

/-- C5 (amended): construction raises a `TypeError` for every non-string
username or key; and every validly constructed Session stores the
username and key arguments exactly as passed, stores `data_format` as
the lowercased string argument, stores an integer season argument
exactly (`None` becomes the current year, a numeric string its integer),
and stores a string source argument exactly — with no warning — when its
lowercase form is one of the three source values, and "production" with
a warning otherwise. -/
theorem session_typeerror_roundtrip (cy : Int)
    (username key season data_format source v w : PyVal)
    (hv : v.isStr = false) (hw : w.isStr = false) :
    (∀ key2 season2 fmt2 source2, mkSession cy v key2 season2 fmt2 source2 =
      .error .typeError) ∧
    (∀ season2 fmt2 source2 u2, mkSession cy (.str u2) w season2 fmt2 source2 =
      .error .typeError) ∧
    (∀ sess warned, mkSession cy username key season data_format source = .ok (sess, warned) →
      username = .str sess.username ∧
      key = .str sess.key ∧
      (∃ df, data_format = .str df ∧ sess.data_format = pyLower df) ∧
      (∀ i : Int, season = .int i → sess.season = i) ∧
      (season = .noneV → sess.season = cy) ∧
      (∀ s2 : String, season = .str s2 → pyIsNumeric s2 = true →
        sess.season = pyToNat s2) ∧
      (∃ src2, source = .str src2 ∧
        ((pyLower src2 = "production" ∨ pyLower src2 = "staging" ∨
          pyLower src2 = "local") → sess.source = src2 ∧ warned = false) ∧
        (pyLower src2 ≠ "production" → pyLower src2 ≠ "staging" →
          pyLower src2 ≠ "local" → sess.source = "production" ∧ warned = true))) := by
  have hv' : usernameSetter v = .error .typeError := by
    cases v <;> simp [PyVal.isStr] at hv <;> rfl
  have hw' : keySetter w = .error .typeError := by
    cases w <;> simp [PyVal.isStr] at hw <;> rfl
  refine ⟨fun key2 season2 fmt2 source2 => ?_, fun season2 fmt2 source2 u2 => ?_,
          fun sess warned hok => ?_⟩
  · simp [mkSession, hv', Bind.bind, Except.bind]
  · simp [mkSession, usernameSetter, hw', Bind.bind, Except.bind]
  · obtain ⟨hu, hk, hs, hd, hsrcok⟩ := mkSession_ok_inv hok
    refine ⟨usernameSetter_ok_inv hu, keySetter_ok_inv hk, ?_, ?_, ?_, ?_, ?_⟩
    · obtain ⟨df, hdf1, hdf2⟩ := dataFormatSetter_ok_inv hd
      exact ⟨df, hdf1, hdf2⟩
    · intro i hi
      subst hi
      exact seasonSetter_int_inv hs
    · intro hn
      subst hn
      exact (Except.ok.inj hs).symm
    · intro s2 hs2 hnum
      subst hs2
      exact seasonSetter_numstr_inv hnum hs
    · obtain ⟨src2, hsv, himem, hinot⟩ := sourceSetter_ok_inv hsrcok
      exact ⟨src2, hsv, himem, hinot⟩

/-- The session stored by the construction in the C5 witness. -/
def sessionW : Session :=
  { username := "u", key := "k", season := 2017,
    data_format := "dataframe", source := "production" }

/-- Witness for `session_typeerror_roundtrip`: type errors for an
integer username and an integer key, and the round-trip facts at a valid
construction with `None` season, mixed-case `data_format` "DataFrame"
and unrecognized source "Remote". -/
theorem session_typeerror_roundtrip_witness :
    mkSession 2017 (.int 7) (.str "k") .noneV (.str "dataframe") (.str "production") =
      .error .typeError ∧
    mkSession 2017 (.str "u") (.int 7) .noneV (.str "dataframe") (.str "production") =
      .error .typeError ∧
    mkSession 2017 (.str "u") (.str "k") .noneV (.str "DataFrame") (.str "Remote") =
      .ok (sessionW, true) ∧
    (PyVal.str "u") = .str sessionW.username ∧
    sessionW.data_format = pyLower "DataFrame" ∧
    sessionW.season = 2017 ∧
    sessionW.source = "production" := by
  have h := session_typeerror_roundtrip 2017 (.str "u") (.str "k") .noneV
    (.str "DataFrame") (.str "Remote") (.int 7) (.int 7) (by decide) (by decide)
  have hok := h.2.2 sessionW true rfl
  refine ⟨h.1 (.str "k") .noneV (.str "dataframe") (.str "production"),
    h.2.1 .noneV (.str "dataframe") (.str "production") "u", rfl, hok.1, ?_, ?_, ?_⟩
  · obtain ⟨df, hdf1, hdf2⟩ := hok.2.2.1
    have hdfe : "DataFrame" = df := PyVal.str.inj hdf1
    rw [hdf2, ← hdfe]
  · exact hok.2.2.2.2.1 rfl
  · obtain ⟨src2, hsv, -, hinot⟩ := hok.2.2.2.2.2.2
    have hse : "Remote" = src2 := PyVal.str.inj hsv
    subst hse
    exact (hinot (by decide) (by decide) (by decide)).1

/-- C6 counterexample: "Local" is not one of the enum values
"production", "staging", "local", yet assigning it does not degrade to
"production" with a warning — the setter stores "Local" verbatim with no
warning. -/
theorem source_fallback_counterexample :
    ("Local" : String) ≠ "production" ∧ ("Local" : String) ≠ "staging" ∧
    ("Local" : String) ≠ "local" ∧
    sourceSetter (.str "Local") = .ok ("Local", false) ∧
    sourceSetter (.str "Local") ≠ .ok ("production", true) :=
  ⟨by decide, by decide, by decide, rfl, by decide⟩

/-- C6 (amended): for every string assigned to `Session.source` whose
lowercase form is not one of "production", "staging", "local", the
assignment does not raise an error: the field is set to "production" and
a warning is emitted. -/
theorem source_invalid_degrades (src : String)
    (h1 : pyLower src ≠ "production") (h2 : pyLower src ≠ "staging")
    (h3 : pyLower src ≠ "local") :
    sourceSetter (.str src) = .ok ("production", true) := by
  simp [sourceSetter, h1, h2, h3]

/-- Witness for `source_invalid_degrades` at the string "remote". -/
theorem source_invalid_degrades_witness :
    sourceSetter (.str "remote") = .ok ("production", true) :=
  source_invalid_degrades "remote" (by decide) (by decide) (by decide)

/-- C9: a string whose lowercase form is "local" but which is not
exactly "local" is accepted by the source setter and stored verbatim
with no warning, and `_send_request` then takes the network branch, not
the local branch, because its dispatch compares the stored source for
exact equality with "local". -/
theorem source_case_insensitive_dispatch (srv : Server) (sess : Session)
    (cmd : String) (args : Args) (mo oms : Option String) (src : String)
    (hl : pyLower src = "local") (hne : src ≠ "local") (hsrc : sess.source = src) :
    sourceSetter (.str src) = .ok (src, false) ∧
    send_request srv sess cmd args mo oms =
      ((if sess.data_format == "dataframe" then
          ApiResult.frame (mkDframe srv (srv.sendHttp sess (build_url sess cmd args) cmd mo oms))
        else ApiResult.dict (srv.sendHttp sess (build_url sess cmd args) cmd mo oms)),
       [{ url := build_url sess cmd args, cmd := cmd, is_local := false }]) := by
  have hb : (sess.source == "local") = false := by
    simp [hsrc, hne]
  refine ⟨by simp [sourceSetter, hl], ?_⟩
  simp [send_request, rawResponse, hb]

/-- Witness for `source_case_insensitive_dispatch` at the string
"Local" with a raw-format session: the stored source is "Local" with no
warning, and the request goes to the network sender. -/
theorem source_case_insensitive_dispatch_witness :
    sourceSetter (.str "Local") = .ok ("Local", false) ∧
    send_request (constServer emptyResponse [])
        { username := "u", key := "k", season := 2017,
          data_format := "json", source := "Local" } "status" [] none none =
      (ApiResult.dict emptyResponse,
       [{ url := "https://frc-api.firstinspires.org/v2.0/2017/status?",
          cmd := "status", is_local := false }]) := by
  have h := source_case_insensitive_dispatch (constServer emptyResponse [])
    { username := "u", key := "k", season := 2017,
      data_format := "json", source := "Local" } "status" [] none none
    "Local" (by decide) (by decide) rfl
  exact ⟨h.1, h.2⟩

/-! ## Theorems about endpoint argument validation -/

/-- C7: `get_events` raises an `ArgumentError` whenever `event` is given
together with any of `team`, `district`, `exclude_district`, and
whenever `district` and `exclude_district` are both given; in every such
case the error is raised with no network or local request issued (the
fetch list is empty). -/
theorem get_events_arg_error (srv : Server) (s : Session)
    (event team district : Option String) (xd : Option Bool)
    (mo oms : Option String)
    (h : ((event.isSome && (team.isSome || district.isSome || xd.isSome))
          || (district.isSome && xd.isSome)) = true) :
    ∃ msg, get_events srv s event team district xd mo oms =
      (.error (.argument msg), []) := by
  by_cases hc : (event.isSome && (team.isSome || district.isSome || xd.isSome)) = true
  · exact ⟨"If you specify an event, you cannot specify any other arguments.",
      by simp [get_events, hc]⟩
  · have hc2 : (district.isSome && xd.isSome) = true := by
      rcases Bool.or_eq_true_iff.mp h with h' | h'
      · exact absurd h' hc
      · exact h'
    exact ⟨"You cannot specify both the district and exclude_district arguments.",
      by simp [get_events, hc, hc2]⟩

/-- Witness for `get_events_arg_error`: `event` "PNCMP" together with
`team` "2910". -/
theorem get_events_arg_error_witness :
    ∃ msg, get_events (constServer emptyResponse [])
      { username := "u", key := "k", season := 2017,
        data_format := "dataframe", source := "production" }
      (some "PNCMP") (some "2910") none none none none =
      (.error (.argument msg), []) :=
  get_events_arg_error (constServer emptyResponse [])
    { username := "u", key := "k", season := 2017,
      data_format := "dataframe", source := "production" }
    (some "PNCMP") (some "2910") none none none none (by decide)

/-- C8: `get_matches` and `get_scores` raise an `ArgumentError` with no
request issued whenever `team` and `match` are both given or `start` or
`end` is given together with `match`; `get_matches` additionally raises
whenever `match`, `start` or `end` is given while `level` is absent. -/
theorem matches_scores_arg_error (srv : Server) (s : Session) (event : String)
    (level team mtch : Option String) (start finish : Option Int)
    (mo oms : Option String) :
    (((team.isSome && mtch.isSome)
      || ((start.isSome || finish.isSome) && mtch.isSome)) = true →
      (∃ m1, get_matches srv s event level team mtch start finish mo oms =
        (.error (.argument m1), [])) ∧
      (∃ m2, get_scores srv s event level team mtch start finish mo oms =
        (.error (.argument m2), []))) ∧
    (((mtch.isSome || start.isSome || finish.isSome) && level.isNone) = true →
      ∃ m3, get_matches srv s event level team mtch start finish mo oms =
        (.error (.argument m3), [])) := by
  constructor
  · intro h
    constructor
    · by_cases h0 : ((mtch.isSome || start.isSome || finish.isSome) && level.isNone) = true
      · exact ⟨"You must specify the level when you specify match, start, or end.",
          by simp [get_matches, h0]⟩
      · by_cases h1 : (team.isSome && mtch.isSome) = true
        · exact ⟨"You cannot specify both a team and a match number.",
            by simp [get_matches, h0, h1]⟩
        · have h2 : ((start.isSome || finish.isSome) && mtch.isSome) = true := by
            rcases Bool.or_eq_true_iff.mp h with h' | h'
            · exact absurd h' h1
            · exact h'
          exact ⟨"You cannot specify start or end if you specify match.",
            by simp [get_matches, h0, h1, h2]⟩
    · by_cases h1 : (team.isSome && mtch.isSome) = true
      · exact ⟨"You cannot specify both a team and a match number.",
          by simp [get_scores, h1]⟩
      · have h2 : ((start.isSome || finish.isSome) && mtch.isSome) = true := by
          rcases Bool.or_eq_true_iff.mp h with h' | h'
          · exact absurd h' h1
          · exact h'
        exact ⟨"You cannot specify start or end if you specify match.",
          by simp [get_scores, h1, h2]⟩
  · intro h0
    exact ⟨"You must specify the level when you specify match, start, or end.",
      by simp [get_matches, h0]⟩

/-- Witness for `matches_scores_arg_error`: `team` "1318" with `match`
"7", and the level-absent case with `start` 3. -/
theorem matches_scores_arg_error_witness :
    ((∃ m1, get_matches (constServer emptyResponse [])
        { username := "u", key := "k", season := 2017,
          data_format := "dataframe", source := "production" }
        "PNCMP" (some "qual") (some "1318") (some "7") none none none none =
        (.error (.argument m1), [])) ∧
     (∃ m2, get_scores (constServer emptyResponse [])
        { username := "u", key := "k", season := 2017,
          data_format := "dataframe", source := "production" }
        "PNCMP" (some "qual") (some "1318") (some "7") none none none none =
        (.error (.argument m2), []))) ∧
    (∃ m3, get_matches (constServer emptyResponse [])
        { username := "u", key := "k", season := 2017,
          data_format := "dataframe", source := "production" }
        "PNCMP" none none none (some 3) none none none =
        (.error (.argument m3), [])) :=
  ⟨(matches_scores_arg_error (constServer emptyResponse [])
      { username := "u", key := "k", season := 2017,
        data_format := "dataframe", source := "production" }
      "PNCMP" (some "qual") (some "1318") (some "7") none none none none).1 (by decide),
   (matches_scores_arg_error (constServer emptyResponse [])
      { username := "u", key := "k", season := 2017,
        data_format := "dataframe", source := "production" }
      "PNCMP" none none none (some 3) none none none).2 (by decide)⟩

/-! ## Basic reduction lemmas -/

lemma mkDframe_attr (srv : Server) (r : Response) : (mkDframe srv r).attr = r := rfl

lemma mkDframe_rows (srv : Server) (r : Response) :
    (mkDframe srv r).rows = srv.parseRows r := rfl

lemma mkDframe_index (srv : Server) (r : Response) :
    (mkDframe srv r).index = List.range (srv.parseRows r).length := rfl

/-! ## Theorems about get_hybrid -/

/-- Agreement of two response envelopes on every field other than
`frame_type`. -/
def envAgreeExceptFrameType (a b : Response) : Prop :=
  a.code = b.code ∧ a.url = b.url ∧ a.requested_url = b.requested_url ∧
  a.time_downloaded = b.time_downloaded ∧ a.last_modified = b.last_modified ∧
  a.mod_since = b.mod_since ∧ a.only_mod_since = b.only_mod_since ∧
  a.local_data = b.local_data ∧ a.local_time = b.local_time ∧
  a.text = b.text ∧ a.text_format = b.text_format

/-- C10: `get_hybrid` performs exactly one fetch, whose command is
"schedule", and returns the result of that fetch with the `frame_type`
field overwritten to "hybrid" — in the dictionary itself when the result
is raw, in the attached metadata when it is a frame — leaving every
other envelope field, and for a frame the rows and index, unchanged. -/
theorem get_hybrid_overwrites_frame_type (srv : Server) (s : Session)
    (event : String) (level : Option String) (start finish : Option Int)
    (mo oms : Option String) :
    ∃ r', (get_hybrid srv s event level start finish mo oms).1 = .ok r' ∧
      (get_hybrid srv s event level start finish mo oms).2 =
        [{ url := build_url s "schedule" (hybridArgs event level start finish),
           cmd := "schedule", is_local := s.source == "local" }] ∧
      r'.isFrame =
        ((send_request srv s "schedule" (hybridArgs event level start finish) mo oms).1).isFrame ∧
      r'.envelope.frame_type = "hybrid" ∧
      envAgreeExceptFrameType r'.envelope
        ((send_request srv s "schedule" (hybridArgs event level start finish) mo oms).1).envelope ∧
      (∀ f, (send_request srv s "schedule" (hybridArgs event level start finish) mo oms).1 = .frame f →
        ∃ f', r' = .frame f' ∧ f'.rows = f.rows ∧ f'.index = f.index) := by
  by_cases hb : (s.data_format == "dataframe") = true
  · refine ⟨.frame { mkDframe srv (rawResponse srv s
        (build_url s "schedule" (hybridArgs event level start finish)) "schedule" mo oms) with
        attr := { rawResponse srv s
          (build_url s "schedule" (hybridArgs event level start finish)) "schedule" mo oms with
          frame_type := "hybrid" } }, ?_, ?_, ?_, rfl, ?_, ?_⟩
    · simp [get_hybrid, send_request, hb, mkDframe_attr]
    · simp [get_hybrid, send_request, hb]
    · simp [send_request, hb, ApiResult.isFrame]
    · simp [send_request, hb, ApiResult.envelope, mkDframe_attr, envAgreeExceptFrameType]
    · intro f hf
      simp only [send_request, hb, if_true] at hf
      simp only [ApiResult.frame.injEq] at hf
      refine ⟨_, rfl, ?_, ?_⟩ <;> simp [← hf]
  · refine ⟨.dict { rawResponse srv s
        (build_url s "schedule" (hybridArgs event level start finish)) "schedule" mo oms with
        frame_type := "hybrid" }, ?_, ?_, ?_, rfl, ?_, ?_⟩
    · simp [get_hybrid, send_request, hb]
    · simp [get_hybrid, send_request, hb]
    · simp [send_request, hb, ApiResult.isFrame]
    · simp [send_request, hb, ApiResult.envelope, envAgreeExceptFrameType]
    · intro f hf
      simp [send_request, hb] at hf

/-! ## Result-shape theorems -/

lemma send_request_isFrame (srv : Server) (s : Session) (cmd : String) (args : Args)
    (mo oms : Option String) :
    ((send_request srv s cmd args mo oms).1).isFrame = (s.data_format == "dataframe") := by
  rcases Bool.eq_false_or_eq_true (s.data_format == "dataframe") with hb | hb <;>
    simp [send_request, hb, ApiResult.isFrame]

lemma get_teams_ok_isFrame (srv : Server) (s : Session)
    (team event district state page mo oms : Option String) (r : ApiResult)
    (hr : (get_teams srv s team event district state page mo oms).1 = .ok r) :
    r.isFrame = (s.data_format == "dataframe") := by
  rcases Bool.eq_false_or_eq_true
      (team.isSome && (event.isSome || district.isSome || state.isSome)) with hval | hval
  · simp [get_teams, hval] at hr
  · rcases Bool.eq_false_or_eq_true (s.data_format == "dataframe") with hb | hb
    · simp only [get_teams, hval, Bool.false_eq_true, if_false, send_request, hb,
        if_true, ite_true, ite_false] at hr
      repeat' split at hr
      all_goals first
        | exact Except.noConfusion hr
        | (rw [← Except.ok.inj hr]; simp [ApiResult.isFrame, hb])
    · simp only [get_teams, hval, Bool.false_eq_true, if_false, send_request, hb,
        if_true, ite_true, ite_false] at hr
      first
        | exact Except.noConfusion hr
        | (rw [← Except.ok.inj hr]; simp [ApiResult.isFrame, hb])

/-- C3: for every endpoint function, whenever a result is returned its
shape is determined entirely by the session's `data_format` field: the
result is a tabular frame exactly when `data_format` is "dataframe",
regardless of which endpoint function was called. -/
theorem result_shape_by_data_format (srv : Server) (s : Session) (event2 : String)
    (event team district state page level mtch top mo oms : Option String)
    (xd : Option Bool) (start finish : Option Int) :
    (∀ r, (get_status srv s).1 = .ok r →
      (r.isFrame = true ↔ s.data_format = "dataframe")) ∧
    (∀ r, (get_season srv s).1 = .ok r →
      (r.isFrame = true ↔ s.data_format = "dataframe")) ∧
    (∀ r, (get_districts srv s mo oms).1 = .ok r →
      (r.isFrame = true ↔ s.data_format = "dataframe")) ∧
    (∀ r, (get_events srv s event team district xd mo oms).1 = .ok r →
      (r.isFrame = true ↔ s.data_format = "dataframe")) ∧
    (∀ r, (get_teams srv s team event district state page mo oms).1 = .ok r →
      (r.isFrame = true ↔ s.data_format = "dataframe")) ∧
    (∀ r, (get_schedule srv s event2 level team start finish mo oms).1 = .ok r →
      (r.isFrame = true ↔ s.data_format = "dataframe")) ∧
    (∀ r, (get_hybrid srv s event2 level start finish mo oms).1 = .ok r →
      (r.isFrame = true ↔ s.data_format = "dataframe")) ∧
    (∀ r, (get_matches srv s event2 level team mtch start finish mo oms).1 = .ok r →
      (r.isFrame = true ↔ s.data_format = "dataframe")) ∧
    (∀ r, (get_scores srv s event2 level team mtch start finish mo oms).1 = .ok r →
      (r.isFrame = true ↔ s.data_format = "dataframe")) ∧
    (∀ r, (get_alliances srv s event2 mo oms).1 = .ok r →
      (r.isFrame = true ↔ s.data_format = "dataframe")) ∧
    (∀ r, (get_rankings srv s event2 team top mo oms).1 = .ok r →
      (r.isFrame = true ↔ s.data_format = "dataframe")) := by
  refine ⟨?_, ?_, ?_, ?_, ?_, ?_, ?_, ?_, ?_, ?_, ?_⟩
  · intro r hr
    simp only [get_status] at hr
    rw [← Except.ok.inj hr, send_request_isFrame]; simp
  · intro r hr
    simp only [get_season] at hr
    rw [← Except.ok.inj hr, send_request_isFrame]; simp
  · intro r hr
    simp only [get_districts] at hr
    rw [← Except.ok.inj hr, send_request_isFrame]; simp
  · intro r hr
    simp only [get_events] at hr
    split at hr
    · simp at hr
    · split at hr
      · simp at hr
      · rw [← Except.ok.inj hr, send_request_isFrame]; simp
  · intro r hr
    rw [get_teams_ok_isFrame srv s team event district state page mo oms r hr]; simp
  · intro r hr
    simp only [get_schedule] at hr
    rw [← Except.ok.inj hr, send_request_isFrame]; simp
  · intro r hr
    obtain ⟨r', hr', _, hfr, _⟩ :=
      get_hybrid_overwrites_frame_type srv s event2 level start finish mo oms
    rw [hr'] at hr
    rw [← Except.ok.inj hr, hfr, send_request_isFrame]; simp
  · intro r hr
    simp only [get_matches] at hr
    split at hr
    · simp at hr
    · split at hr
      · simp at hr
      · split at hr
        · simp at hr
        · rw [← Except.ok.inj hr, send_request_isFrame]; simp
  · intro r hr
    simp only [get_scores] at hr
    split at hr
    · simp at hr
    · split at hr
      · simp at hr
      · rw [← Except.ok.inj hr, send_request_isFrame]; simp
  · intro r hr
    simp only [get_alliances] at hr
    rw [← Except.ok.inj hr, send_request_isFrame]; simp
  · intro r hr
    simp only [get_rankings] at hr
    split at hr
    · simp at hr
    · rw [← Except.ok.inj hr, send_request_isFrame]; simp

/-- Witness for `result_shape_by_data_format`: a dataframe-format
session yields a frame from `get_status`, a raw-format session yields a
dictionary. -/
theorem result_shape_by_data_format_witness :
    (ApiResult.frame (mkDframe (constServer emptyResponse []) emptyResponse)).isFrame = true ∧
    (ApiResult.dict emptyResponse).isFrame = false := by
  constructor
  · exact ((result_shape_by_data_format (constServer emptyResponse [])
      { username := "u", key := "k", season := 2017,
        data_format := "dataframe", source := "production" }
      "E" none none none none none none none none none none none none none).1
      (.frame (mkDframe (constServer emptyResponse []) emptyResponse)) rfl).mpr rfl
  · have h := ((result_shape_by_data_format (constServer emptyResponse [])
      { username := "u", key := "k", season := 2017,
        data_format := "json", source := "production" }
      "E" none none none none none none none none none none none none none).1
      (.dict emptyResponse) rfl)
    rcases Bool.eq_false_or_eq_true (ApiResult.dict emptyResponse).isFrame with hb | hb
    · exact absurd (h.mp hb) (by decide)
    · exact hb

/-! ## Pagination theorems -/

lemma collectFrames_map_frame {α : Type} (l : List α) (g : α → Dframe) :
    collectFrames (l.map (fun p => ApiResult.frame (g p))) = some (l.map g) := by
  induction l with
  | nil => rfl
  | cons a t ih => simp [collectFrames, ih]

lemma flatten_map_singleton {α β : Type} (l : List α) (h : α → β) :
    (l.map (fun p => [h p])).flatten = l.map h := by
  induction l with
  | nil => rfl
  | cons a t ih => simp [ih]

lemma map_range'_getLastD {α : Type} (g : Nat → α) (d : α) (a m : Nat) :
    ((List.range' a (m + 1)).map g).getLastD d = g (a + m) := by
  induction m generalizing a d with
  | zero => simp [List.range']
  | succ n ih =>
    rw [List.range'_succ]
    simp only [List.map_cons, List.getLastD_cons]
    rw [ih]
    congr 1
    omega

lemma teamsArgs_set_page (team event district state page : Option String) (p : String) :
    Args.set (teamsArgs team event district state page) "page" (some (ArgVal.s p)) =
      teamsArgs team event district state (some p) := by
  simp [Args.set, teamsArgs]

/-- C2: `get_teams` attempts a second fetch only when the first result
is a frame (dataframe format), the caller passed no explicit page, and
the first response's status is not 304; and when the first page reports
one total page, the first result is returned unchanged.  In each
excluded case the returned result is the first fetch's result unchanged
and the fetch list has exactly that one fetch. -/
theorem get_teams_no_pagination (srv : Server) (s : Session)
    (team event district state page mo oms : Option String) (p : String)
    (hval : (team.isSome && (event.isSome || district.isSome || state.isSome)) = false) :
    (s.data_format ≠ "dataframe" →
      get_teams srv s team event district state page mo oms =
        (.ok (.dict (rawResponse srv s (teamsPageUrl s team event district state page)
           "teams" mo oms)),
         [teamsPageEvent s team event district state page])) ∧
    (s.data_format = "dataframe" →
      get_teams srv s team event district state (some p) mo oms =
        (.ok (.frame (teamsPageFrame srv s team event district state (some p) mo oms)),
         [teamsPageEvent s team event district state (some p)])) ∧
    (s.data_format = "dataframe" →
      (teamsPageFrame srv s team event district state none mo oms).attr.code = 304 →
      get_teams srv s team event district state none mo oms =
        (.ok (.frame (teamsPageFrame srv s team event district state none mo oms)),
         [teamsPageEvent s team event district state none])) ∧
    (s.data_format = "dataframe" →
      (teamsPageFrame srv s team event district state none mo oms).at0 "pageTotal" =
        some (.n 1) →
      get_teams srv s team event district state none mo oms =
        (.ok (.frame (teamsPageFrame srv s team event district state none mo oms)),
         [teamsPageEvent s team event district state none])) := by
  refine ⟨?_, ?_, ?_, ?_⟩
  · intro hdf
    have hb : (s.data_format == "dataframe") = false := by simp [hdf]
    simp [get_teams, hval, send_request, hb, teamsPageUrl, teamsPageEvent]
  · intro hdf
    have hb : (s.data_format == "dataframe") = true := by simp [hdf]
    simp [get_teams, hval, send_request, hb, teamsPageFrame, teamsPageUrl, teamsPageEvent]
  · intro hdf h304
    have hb : (s.data_format == "dataframe") = true := by simp [hdf]
    have h304' : (rawResponse srv s (build_url s "teams"
        (teamsArgs team event district state none)) "teams" mo oms).code = 304 := by
      simpa [teamsPageFrame, teamsPageUrl, mkDframe_attr] using h304
    simp [get_teams, hval, send_request, hb, mkDframe_attr, h304',
      teamsPageFrame, teamsPageUrl, teamsPageEvent]
  · intro hdf hpt
    have hb : (s.data_format == "dataframe") = true := by simp [hdf]
    have hpt' : (mkDframe srv (rawResponse srv s (build_url s "teams"
        (teamsArgs team event district state none)) "teams" mo oms)).at0 "pageTotal" =
        some (.n 1) := by
      simpa [teamsPageFrame, teamsPageUrl] using hpt
    rcases Bool.eq_false_or_eq_true ((rawResponse srv s (build_url s "teams"
        (teamsArgs team event district state none)) "teams" mo oms).code == 304)
      with h304 | h304
    · simp [get_teams, hval, send_request, hb, mkDframe_attr, h304,
        teamsPageFrame, teamsPageUrl, teamsPageEvent]
    · simp [get_teams, hval, send_request, hb, mkDframe_attr, h304, hpt',
        teamsPageFrame, teamsPageUrl, teamsPageEvent]

/-- Witness for `get_teams_no_pagination`: a dataframe session whose
first page reports one total page gets that page back unchanged after a
single fetch, and a raw-format session gets the dictionary back after a
single fetch. -/
theorem get_teams_no_pagination_witness :
    get_teams (constServer emptyResponse [[("pageTotal", Cell.n 1)]])
      { username := "u", key := "k", season := 2017,
        data_format := "dataframe", source := "production" }
      none none none none none none none =
      (.ok (.frame (teamsPageFrame (constServer emptyResponse [[("pageTotal", Cell.n 1)]])
         { username := "u", key := "k", season := 2017,
           data_format := "dataframe", source := "production" }
         none none none none none none none)),
       [teamsPageEvent
          { username := "u", key := "k", season := 2017,
            data_format := "dataframe", source := "production" }
          none none none none none]) ∧
    get_teams (constServer emptyResponse [])
      { username := "u", key := "k", season := 2017,
        data_format := "json", source := "production" }
      none none none none none none none =
      (.ok (.dict (rawResponse (constServer emptyResponse [])
         { username := "u", key := "k", season := 2017,
           data_format := "json", source := "production" }
         (teamsPageUrl
           { username := "u", key := "k", season := 2017,
             data_format := "json", source := "production" }
           none none none none none)
         "teams" none none)),
       [teamsPageEvent
          { username := "u", key := "k", season := 2017,
            data_format := "json", source := "production" }
          none none none none none]) :=
  ⟨(get_teams_no_pagination (constServer emptyResponse [[("pageTotal", Cell.n 1)]])
      { username := "u", key := "k", season := 2017,
        data_format := "dataframe", source := "production" }
      none none none none none none none "2" rfl).2.2.2 rfl rfl,
   (get_teams_no_pagination (constServer emptyResponse [])
      { username := "u", key := "k", season := 2017,
        data_format := "json", source := "production" }
      none none none none none none none "2" rfl).1 (by decide)⟩

lemma pageArg_one : pageArg 1 = none := rfl

lemma map_pageArg_range' {α : Type} (F : Nat → Option String → α) (m : Nat) :
    (List.range' 2 m).map (fun k => F k (pageArg k)) =
      (List.range' 2 m).map (fun k => F k (some (toString k))) := by
  apply List.map_congr_left
  intro k hk
  obtain ⟨i, -, rfl⟩ := List.mem_range'.mp hk
  have hne : ¬ (2 + i = 1) := by omega
  simp [pageArg, hne]

/-- C1: for a multi-page teams fetch (dataframe format, no explicit
page, first page a fresh 200 fetch reporting N > 1 total pages),
`get_teams` fetches pages 2..N in ascending order after page 1, returns
a frame whose rows are the concatenation of the N pages' rows in page
order, whose index is the contiguous integers from 0, and whose attached
envelope is the envelope of page N, the last page fetched. -/
theorem get_teams_pagination (srv : Server) (s : Session)
    (team event district state mo oms : Option String) (N : Nat)
    (hval : (team.isSome && (event.isSome || district.isSome || state.isSome)) = false)
    (hdf : s.data_format = "dataframe")
    (hcode : (teamsPageFrame srv s team event district state none mo oms).attr.code = 200)
    (hpt : (teamsPageFrame srv s team event district state none mo oms).at0 "pageTotal" =
      some (.n (N : Int)))
    (hN : 1 < N) :
    get_teams srv s team event district state none mo oms =
      (.ok (.frame
        { rows := ((List.range' 1 N).map (fun k =>
            (teamsPageFrame srv s team event district state (pageArg k) mo oms).rows)).flatten,
          index := List.range (((List.range' 1 N).map (fun k =>
            (teamsPageFrame srv s team event district state (pageArg k) mo oms).rows)).flatten).length,
          attr := (teamsPageFrame srv s team event district state (pageArg N) mo oms).attr }),
       (List.range' 1 N).map (fun k => teamsPageEvent s team event district state (pageArg k))) := by
  obtain ⟨m, rfl⟩ : ∃ m, N = m + 2 := ⟨N - 2, by omega⟩
  have hb : (s.data_format == "dataframe") = true := by simp [hdf]
  have hcode' : (rawResponse srv s (build_url s "teams"
      (teamsArgs team event district state none)) "teams" mo oms).code = 200 := by
    simpa [teamsPageFrame, teamsPageUrl, mkDframe_attr] using hcode
  have h304 : ((rawResponse srv s (build_url s "teams"
      (teamsArgs team event district state none)) "teams" mo oms).code == 304) = false := by
    simp [hcode']
  have hpt' : (mkDframe srv (rawResponse srv s (build_url s "teams"
      (teamsArgs team event district state none)) "teams" mo oms)).at0 "pageTotal" =
      some (.n ((m + 2 : Nat) : Int)) := by
    simpa [teamsPageFrame, teamsPageUrl] using hpt
  have hne1 : (((m + 2 : Nat) : Int) == 1) = false := by
    rw [beq_eq_false_iff_ne]
    omega
  have htn : (((m + 2 : Nat) : Int) - 1).toNat = m + 1 := by omega
  have hpageN : pageArg (m + 2) = some (toString (m + 2)) := by
    have : ¬ (m + 2 = 1) := by omega
    simp [pageArg, this]
  have hlist : List.range' 1 (m + 2) = 1 :: List.range' 2 (m + 1) := by
    rw [List.range'_succ]
  have h2m : 2 + m = m + 2 := by omega
  rw [hlist, hpageN]
  simp only [List.map_cons, pageArg_one]
  rw [map_pageArg_range'
        (fun _ v => (teamsPageFrame srv s team event district state v mo oms).rows),
      map_pageArg_range' (fun _ v => teamsPageEvent s team event district state v)]
  simp only [get_teams, hval, Bool.false_eq_true, if_false, send_request, hb, if_true,
    Option.isSome_none, mkDframe_attr, h304, hpt', hne1, htn, teamsArgs_set_page,
    List.map_map, Function.comp_def, collectFrames_map_frame, flatten_map_singleton,
    teamsPageFrame, teamsPageUrl, teamsPageEvent, concatReindexed, List.flatMap_def,
    List.map_cons, map_range'_getLastD, List.singleton_append, h2m]

/-- A first-page response for the pagination witness. -/
def pageOneResponse : Response :=
  { code := 200, url := "u", requested_url := "u", time_downloaded := "t1",
    last_modified := some "lm1", mod_since := none, only_mod_since := none,
    local_data := false, local_time := none, frame_type := "teams",
    text := some "p1", text_format := "json" }

/-- The second-page response for the pagination witness: same envelope
shape, later download time, different payload. -/
def pageTwoResponse : Response :=
  { pageOneResponse with text := some "p2", time_downloaded := "t2" }

/-- A server with a two-page teams resource (2 rows on page 1, 1 row on
page 2, both reporting pageTotal 2). -/
def twoPageServer : Server :=
  { sendHttp := fun _ url _ _ _ =>
      if url = "https://frc-api.firstinspires.org/v2.0/2017/teams?page=2" then pageTwoResponse
      else pageOneResponse,
    sendLocal := fun _ _ _ => pageOneResponse,
    parseRows := fun r =>
      if r.text == some "p2" then [[("pageTotal", Cell.n 2), ("teamNumber", Cell.n 971)]]
      else [[("pageTotal", Cell.n 2), ("teamNumber", Cell.n 254)],
            [("pageTotal", Cell.n 2), ("teamNumber", Cell.n 111)]] }

/-- Witness for `get_teams_pagination`: two pages of sizes 2 and 1
combine into a 3-row frame indexed 0..2 carrying page 2's envelope,
after fetches of page 1 then page 2. -/
theorem get_teams_pagination_witness :
    (1 : Nat) < 2 ∧
    (teamsPageFrame twoPageServer
      { username := "u", key := "k", season := 2017,
        data_format := "dataframe", source := "production" }
      none none none none none none none).attr.code = 200 ∧
    (teamsPageFrame twoPageServer
      { username := "u", key := "k", season := 2017,
        data_format := "dataframe", source := "production" }
      none none none none none none none).at0 "pageTotal" = some (.n ((2 : Nat) : Int)) ∧
    get_teams twoPageServer
      { username := "u", key := "k", season := 2017,
        data_format := "dataframe", source := "production" }
      none none none none none none none =
      (.ok (.frame
        { rows := [[("pageTotal", Cell.n 2), ("teamNumber", Cell.n 254)],
                   [("pageTotal", Cell.n 2), ("teamNumber", Cell.n 111)],
                   [("pageTotal", Cell.n 2), ("teamNumber", Cell.n 971)]],
          index := [0, 1, 2],
          attr := pageTwoResponse }),
       [{ url := "https://frc-api.firstinspires.org/v2.0/2017/teams?",
          cmd := "teams", is_local := false },
        { url := "https://frc-api.firstinspires.org/v2.0/2017/teams?page=2",
          cmd := "teams", is_local := false }]) := by
  refine ⟨by decide, rfl, rfl, ?_⟩
  exact get_teams_pagination twoPageServer
    { username := "u", key := "k", season := 2017,
      data_format := "dataframe", source := "production" }
    none none none none none none 2 rfl rfl rfl rfl (by decide)

end Fapy